import Mathlib

/-!
Verification of playwright-nextjs-auth: a shallow embedding of the
configuration loader (src/utils/config-loader.ts), the provider dispatcher
and session driver (src/index.ts), the Firebase CDN-injection strategy
(src/providers/firebase.ts) and the Supabase password-grant strategy (code
listing in claudedocs/gemini_design.md), together with theorems about the
behaviour these sources exhibit.

Browser, network and file-system effects are modelled by oracles: a record
field of type `Except String α` gives the outcome the external world delivers
for one awaited call (`.error e` models a thrown exception whose JavaScript
`String(error)` rendering is `e`).  Each run returns its outcome together
with the list of page/network operations it performed, in order.
-/

/-- JavaScript truthiness of an optional string field: `undefined`/`null` and
the empty string are falsy, every other string is truthy (the sources test
fields with `!x`). -/
def jsTruthy : Option String → Bool
  | none => false
  | some s => !s.isEmpty

/-- JavaScript string coercion of a possibly-undefined string, as template
interpolation renders it. -/
def optDisplay : Option String → String
  | none => "undefined"
  | some s => s

/-- JavaScript `String.prototype.replace` with a string pattern and the empty
replacement: removes the leftmost occurrence of `pat`, and leaves the text
unchanged when `pat` does not occur (`getProjectRef` uses
`hostname.replace(".supabase.co", "")`). -/
def replaceFirst (pat : List Char) : List Char → List Char
  | [] => []
  | c :: rest =>
      if pat <+: (c :: rest) then (c :: rest).drop pat.length
      else c :: replaceFirst pat rest

/-- The text after the first occurrence of `pat`; the whole text when `pat`
does not occur (used to strip the URL scheme). -/
def afterFirst (pat : List Char) : List Char → List Char
  | [] => []
  | c :: rest =>
      if pat <+: (c :: rest) then (c :: rest).drop pat.length
      else afterFirst pat rest

/-- Hostname of a scheme-qualified URL, as the WHATWG URL parser used by the
source (`new URL(url).hostname`) yields it for the URLs in scope: the text
between `://` and the first path/port/query/fragment delimiter, lowercased. -/
def hostnameOf (url : String) : List Char :=
  ((afterFirst "://".data url.data).takeWhile
    (fun c => !(c == '/' || c == ':' || c == '?' || c == '#'))).map Char.toLower

/-- The hosted-SaaS domain suffix `getProjectRef` tests for. -/
def supaSuffix : List Char := ".supabase.co".data

/-- `SupabaseProvider.getProjectRef` (listing in claudedocs/gemini_design.md):
when the hostname ends with `.supabase.co`, remove the first occurrence of
that text (JavaScript `String.replace` with a string pattern replaces the
leftmost occurrence); otherwise replace every dot of the full hostname by a
hyphen. -/
def getProjectRef (hostname : List Char) : List Char :=
  if supaSuffix <:+ hostname then replaceFirst supaSuffix hostname
  else hostname.map (fun c => if c = '.' then '-' else c)

/-- The storage key `sb-<projectRef>-auth-token` derived in `injectSession`
and again in `SupabaseProvider.signIn`. -/
def supabaseStorageKey (hostname : List Char) : List Char :=
  "sb-".data ++ getProjectRef hostname ++ "-auth-token".data

/-- The derived storage key for a configured base URL. -/
def supabaseStorageKeyOfUrl (url : String) : String :=
  String.mk (supabaseStorageKey (hostnameOf url))

/-- The pattern `.supabase.co` has no nonempty proper border: no nonempty
proper suffix of it is also one of its prefixes. -/
theorem supaSuffix_borderFree :
    ∀ k, k < supaSuffix.length → 0 < k → ¬ (supaSuffix.drop k <+: supaSuffix) := by
  decide

/-- Removing the first occurrence of a border-free pattern from `p ++ pat`
yields `p` whenever the pattern does not occur inside `p`. -/
theorem replaceFirst_append_no_inner_occ (pat : List Char)
    (hb : ∀ k, k < pat.length → 0 < k → ¬ (pat.drop k <+: pat)) (hne : pat ≠ []) :
    ∀ p : List Char, ¬ pat <:+: p → replaceFirst pat (p ++ pat) = p := by
  intro p
  induction p with
  | nil =>
    intro _
    obtain ⟨c, rest, rfl⟩ := List.exists_cons_of_ne_nil hne
    simp [replaceFirst]
  | cons a p' ih =>
    intro hni
    have hcond : ¬ pat <+: a :: (p' ++ pat) := by
      intro hpre
      rcases le_or_lt pat.length (a :: p').length with hle | hlt
      · have heq := List.prefix_iff_eq_take.mp hpre
        rw [← List.cons_append, List.take_append_eq_append_take,
          Nat.sub_eq_zero_of_le hle, List.take_zero, List.append_nil] at heq
        have : pat <+: a :: p' := by rw [heq]; exact List.take_prefix _ _
        exact hni this.isInfix
      · have heq := List.prefix_iff_eq_take.mp hpre
        rw [← List.cons_append, List.take_append_eq_append_take,
          List.take_of_length_le (Nat.le_of_lt hlt)] at heq
        have hdrop : pat.drop (a :: p').length = pat.take (pat.length - (a :: p').length) := by
          conv_lhs => rw [heq]
          rw [List.drop_left]
        have hborder : pat.drop (a :: p').length <+: pat := by
          rw [hdrop]; exact List.take_prefix _ _
        exact hb (a :: p').length hlt (by simp) hborder
    have hni' : ¬ pat <:+: p' := fun h => hni (h.trans (List.suffix_cons a p').isInfix)
    calc replaceFirst pat (a :: p' ++ pat)
        = a :: replaceFirst pat (p' ++ pat) := by
          rw [List.cons_append]
          simp only [replaceFirst, if_neg hcond]
      _ = a :: p' := by rw [ih hni']

/-!
Configuration model (src/types.ts): runtime JSON may omit any field the
loader checks for, so every checked field is modelled as an `Option`; JSON
`null` is identified with an absent field (both are JS-falsy and fail the
`in` test indirectly-checked fields never undergo).
-/

/-- Service-account credential (src/types.ts `FirebaseServiceAccount`; field
names camel-cased, `type` renamed `accountType`).  The loader only tests the
object's presence; the contents go verbatim to the admin SDK. -/
structure FirebaseServiceAccount where
  accountType : String
  projectId : String
  privateKeyId : String
  privateKey : String
  clientEmail : String
  clientId : String
  authUri : String
  tokenUri : String
  authProviderCertUrl : String
  clientCertUrl : String
  universeDomain : Option String
deriving Repr, DecidableEq

/-- Public client parameters (src/types.ts `FirebaseClientConfig`).  The
loader checks the three required keys with the JavaScript `in` operator, so
presence is what the `Option` captures. -/
structure FirebaseClientConfig where
  apiKey : Option String
  authDomain : Option String
  projectId : Option String
  storageBucket : Option String
  messagingSenderId : Option String
  appId : Option String
deriving Repr, DecidableEq

/-- Test principal (src/types.ts `TestUser`). -/
structure TestUser where
  email : Option String
  password : Option String
  uid : Option String
deriving Repr, DecidableEq

/-- Firebase block (src/types.ts `FirebaseConfig`). -/
structure FirebaseConfig where
  serviceAccount : Option FirebaseServiceAccount
  clientConfig : Option FirebaseClientConfig
deriving Repr, DecidableEq

/-- Supabase block (src/types.ts `SupabaseConfig`). -/
structure SupabaseConfig where
  url : Option String
  anonKey : Option String
deriving Repr, DecidableEq

/-- NextAuth block (src/types.ts `NextAuthConfig`). -/
structure NextAuthConfig where
  enabled : Bool
  callbackUrl : Option String
deriving Repr, DecidableEq

/-- Top-level configuration (src/types.ts `PlaywrightAuthConfig`). -/
structure PlaywrightAuthConfig where
  provider : Option String
  testUser : Option TestUser
  firebase : Option FirebaseConfig
  supabase : Option SupabaseConfig
  nextAuth : Option NextAuthConfig
deriving Repr, DecidableEq

/-- A field of the test user, read the way the validators read
`config.testUser.<field>` (only reached once `testUser` is known present). -/
def userField (c : PlaywrightAuthConfig) (f : TestUser → Option String) : Option String :=
  match c.testUser with
  | none => none
  | some tu => f tu

/-- The provider value as JavaScript template interpolation renders it in the
`Unknown provider` message. -/
def providerName (c : PlaywrightAuthConfig) : String :=
  optDisplay c.provider

/-- `validateFirebaseConfig` (src/utils/config-loader.ts): firebase block,
service account and client config present, the three required client keys
present, and a truthy `testUser.uid`. -/
def validateFirebaseConfig (config : PlaywrightAuthConfig) : Except String Unit :=
  match config.firebase with
  | none => .error "Firebase provider requires \"firebase\" configuration"
  | some fb =>
    match fb.serviceAccount with
    | none => .error "Firebase configuration requires \"serviceAccount\""
    | some _ =>
      match fb.clientConfig with
      | none => .error "Firebase configuration requires \"clientConfig\""
      | some cc =>
        if cc.apiKey.isNone then .error "Firebase clientConfig requires \"apiKey\""
        else if cc.authDomain.isNone then .error "Firebase clientConfig requires \"authDomain\""
        else if cc.projectId.isNone then .error "Firebase clientConfig requires \"projectId\""
        else if !jsTruthy (userField config TestUser.uid) then
          .error "Firebase authentication requires \"testUser.uid\""
        else .ok ()

/-- `validateSupabaseConfig` (src/utils/config-loader.ts): supabase block
present, truthy `url` and `anonKey`, truthy `testUser.email` and
`testUser.password`. -/
def validateSupabaseConfig (config : PlaywrightAuthConfig) : Except String Unit :=
  match config.supabase with
  | none => .error "Supabase provider requires \"supabase\" configuration"
  | some sb =>
    if !jsTruthy sb.url then .error "Supabase configuration requires \"url\""
    else if !jsTruthy sb.anonKey then .error "Supabase configuration requires \"anonKey\""
    else if !jsTruthy (userField config TestUser.email) ||
        !jsTruthy (userField config TestUser.password) then
      .error "Supabase authentication requires \"testUser.email\" and \"testUser.password\""
    else .ok ()

/-- `validateConfig` (src/utils/config-loader.ts): provider present and one
of the two supported names, test user present, then the provider-specific
checks. -/
def validateConfig (config : PlaywrightAuthConfig) : Except String Unit :=
  if !jsTruthy config.provider then
    .error "Configuration must specify \"provider\" field"
  else if ¬ (config.provider = some "firebase" ∨ config.provider = some "supabase") then
    .error ("Unknown provider: " ++ providerName config ++ ". Supported: firebase, supabase")
  else if config.testUser.isNone then
    .error "Configuration must specify \"testUser\" field"
  else if config.provider = some "firebase" then
    validateFirebaseConfig config
  else
    validateSupabaseConfig config

/-- `loadConfig` (src/utils/config-loader.ts) given what the file system
holds at the resolved path: `none` means no readable file, `some none` a file
whose contents do not parse as JSON, `some (some config)` parsed contents.
On success the parsed configuration is returned unchanged. -/
def loadConfigFile (file : Option (Option PlaywrightAuthConfig)) (configPath : String) :
    Except String PlaywrightAuthConfig :=
  match file with
  | none =>
    .error ("Configuration file not found: " ++ configPath ++
      "\nPlease create the file from playwright.env.json.sample")
  | some none =>
    .error ("Failed to parse configuration file: " ++ configPath ++
      "\nPlease ensure the file contains valid JSON")
  | some (some config) =>
    match validateConfig config with
    | .error e => .error e
    | .ok _ => .ok config

/-- The required-field condition exactly as claim C1 enumerates it: provider
one of the supported enum values, test user present, and the active
provider's required fields present (a string field counts as missing when it
is absent or empty, which is what the loader's JS-truthiness tests reject;
the three client keys are checked for presence only, via `in`). -/
def requiredConfigPresent (c : PlaywrightAuthConfig) : Bool :=
  (c.provider = some "firebase" ∨ c.provider = some "supabase" : Bool) &&
  c.testUser.isSome &&
  (if c.provider = some "firebase" then
    match c.firebase with
    | none => false
    | some fb =>
      fb.serviceAccount.isSome &&
      (match fb.clientConfig with
       | none => false
       | some cc => cc.apiKey.isSome && cc.authDomain.isSome && cc.projectId.isSome) &&
      jsTruthy (userField c TestUser.uid)
  else
    match c.supabase with
    | none => false
    | some sb =>
      jsTruthy sb.url && jsTruthy sb.anonKey &&
      jsTruthy (userField c TestUser.email) && jsTruthy (userField c TestUser.password))

/-- Helper: the two provider names are nonempty strings. -/
theorem isEmpty_firebase : "firebase".isEmpty = false := rfl

/-- Helper: see `isEmpty_firebase`. -/
theorem isEmpty_supabase : "supabase".isEmpty = false := rfl

/-- The validator accepts exactly the configurations whose required fields
are present (helper shared by the claim theorems and the driver lemmas). -/
theorem validateConfig_ok_iff (c : PlaywrightAuthConfig) :
    validateConfig c = .ok () ↔ requiredConfigPresent c = true := by
  obtain ⟨prov, tu, fb, sb, na⟩ := c
  rcases prov with _ | p
  · simp [validateConfig, requiredConfigPresent, jsTruthy]
  · rcases eq_or_ne p "firebase" with rfl | hf
    · rcases tu with _ | ⟨em, pw, uid⟩
      · simp [validateConfig, requiredConfigPresent, jsTruthy, isEmpty_firebase]
      · rcases fb with _ | ⟨sa, cc⟩
        · simp [validateConfig, validateFirebaseConfig, requiredConfigPresent, jsTruthy,
            isEmpty_firebase]
        · rcases sa with _ | sa
          · rcases cc with _ | cc <;>
              simp [validateConfig, validateFirebaseConfig, requiredConfigPresent, jsTruthy,
                isEmpty_firebase]
          · rcases cc with _ | ⟨ak, ad, pid, sbk, msi, apid⟩
            · simp [validateConfig, validateFirebaseConfig, requiredConfigPresent, jsTruthy,
                isEmpty_firebase]
            · rcases ak with _ | ak <;> rcases ad with _ | ad <;> rcases pid with _ | pid <;>
                rcases uid with _ | uid <;>
                simp [validateConfig, validateFirebaseConfig, requiredConfigPresent, jsTruthy,
                  userField, isEmpty_firebase]
    · rcases eq_or_ne p "supabase" with rfl | hs
      · rcases tu with _ | ⟨em, pw, uid⟩
        · simp [validateConfig, requiredConfigPresent, jsTruthy, isEmpty_supabase, hf]
        · rcases sb with _ | ⟨u, k⟩
          · simp [validateConfig, validateSupabaseConfig, requiredConfigPresent, jsTruthy,
              isEmpty_supabase, hf]
          · rcases u with _ | u <;> rcases k with _ | k <;> rcases em with _ | em <;>
              rcases pw with _ | pw <;>
              simp [validateConfig, validateSupabaseConfig, requiredConfigPresent, jsTruthy,
                userField, isEmpty_supabase, hf] <;>
              split_ifs <;> simp_all <;> intro hx <;> simp_all
      · rcases tu with _ | tu <;>
          rcases hpe : p.isEmpty <;>
          simp [validateConfig, requiredConfigPresent, jsTruthy, hf, hs, hpe]

/-!
Provider dispatch and session driver (src/index.ts).
-/

/-- A constructed provider instance: `new FirebaseProvider(config.firebase,
config.testUser, config.nextAuth)` or `new SupabaseProvider(config.supabase,
config.testUser)`. -/
inductive AuthProviderInst where
  | firebase (config : FirebaseConfig) (testUser : Option TestUser)
      (nextAuth : Option NextAuthConfig)
  | supabase (config : SupabaseConfig) (testUser : Option TestUser)
deriving Repr, DecidableEq

/-- `createProvider` (src/index.ts): switch on `config.provider`, require the
matching sub-config block, and bind the instance to it together with the test
user (and, for firebase, the optional nextAuth block). -/
def createProvider (config : PlaywrightAuthConfig) : Except String AuthProviderInst :=
  match config.provider with
  | some "firebase" =>
    match config.firebase with
    | none => .error "Firebase configuration is required"
    | some fb => .ok (.firebase fb config.testUser config.nextAuth)
  | some "supabase" =>
    match config.supabase with
    | none => .error "Supabase configuration is required"
    | some sb => .ok (.supabase sb config.testUser)
  | _ => .error ("Unknown provider: " ++ providerName config)

/-- `createAuthProvider` (src/index.ts): the exported wrapper around
`createProvider`. -/
def createAuthProvider (config : PlaywrightAuthConfig) : Except String AuthProviderInst :=
  createProvider config

/-- One page/browser operation performed by `authSetup` (src/index.ts). -/
inductive SetupEvent where
  | launchBrowser
  | newContext (ignoreHTTPSErrors : Bool)
  | newPage
  | providerSignIn
  | saveStorageState (indexedDB : Bool)
  | closeBrowser
deriving Repr, DecidableEq

/-- Oracle for one `authSetup` run: what the file system holds at the config
path, and the outcomes of the `provider.signIn(page)` and
`context.storageState(...)` calls. -/
structure AuthSetupEnv where
  configPath : String
  file : Option (Option PlaywrightAuthConfig)
  signInOutcome : Except String Unit
  snapshotOutcome : Except String Unit
deriving Repr

/-- `authSetup` (src/index.ts): load and validate the configuration, launch
the browser, create the provider, and inside a try/finally run `signIn`,
save the storage state with `indexedDB: true` only when `signIn` resolved,
rethrow any error, and close the browser in the finally block.  The
`createProvider` call sits between the launch and the try block, so a
failure there would skip the close (the driver lemma below shows it cannot
fail once `loadConfig` has validated the configuration). -/
def authSetupRun (env : AuthSetupEnv) : Except String Unit × List SetupEvent :=
  match loadConfigFile env.file env.configPath with
  | .error e => (.error e, [])
  | .ok config =>
    let t0 := [SetupEvent.launchBrowser, SetupEvent.newContext true, SetupEvent.newPage]
    match createProvider config with
    | .error e => (.error e, t0)
    | .ok _provider =>
      match env.signInOutcome with
      | .error e => (.error e, t0 ++ [SetupEvent.providerSignIn, SetupEvent.closeBrowser])
      | .ok _ =>
        let t1 := t0 ++ [SetupEvent.providerSignIn, SetupEvent.saveStorageState true]
        match env.snapshotOutcome with
        | .error e => (.error e, t1 ++ [SetupEvent.closeBrowser])
        | .ok _ => (.ok (), t1 ++ [SetupEvent.closeBrowser])

/-- Number of storage-snapshot captures in a trace. -/
def countSnapshots (t : List SetupEvent) : Nat :=
  (t.filter (fun e => match e with | SetupEvent.saveStorageState _ => true | _ => false)).length

/-- Helper: a configuration the loader accepted always yields a provider
instance — `createProvider` cannot throw after validation. -/
theorem createProvider_ok_of_valid (c : PlaywrightAuthConfig)
    (h : requiredConfigPresent c = true) : ∃ inst, createProvider c = .ok inst := by
  obtain ⟨prov, tu, fb, sb, na⟩ := c
  rcases prov with _ | p
  · simp [requiredConfigPresent] at h
  · rcases eq_or_ne p "firebase" with rfl | hf
    · rcases fb with _ | fb
      · simp [requiredConfigPresent] at h
      · exact ⟨_, rfl⟩
    · rcases eq_or_ne p "supabase" with rfl | hs
      · rcases sb with _ | sb
        · simp [requiredConfigPresent, hf] at h
        · exact ⟨_, rfl⟩
      · simp [requiredConfigPresent, hf, hs] at h

/-- Helper: the loader succeeds exactly on a parsed file whose required
fields are present, and then returns the parsed configuration unchanged. -/
theorem loadConfigFile_ok_iff (file : Option (Option PlaywrightAuthConfig)) (p : String)
    (c : PlaywrightAuthConfig) :
    loadConfigFile file p = .ok c ↔ file = some (some c) ∧ requiredConfigPresent c = true := by
  rcases file with _ | (_ | cfg)
  · simp [loadConfigFile]
  · simp [loadConfigFile]
  · simp only [loadConfigFile, Option.some.injEq]
    rcases hv : validateConfig cfg with e | u
    · constructor
      · intro hcontra; cases hcontra
      · rintro ⟨rfl, hreq⟩
        rw [← validateConfig_ok_iff] at hreq
        simp [hv] at hreq
    · obtain rfl : u = () := rfl
      have hreq := (validateConfig_ok_iff cfg).mp hv
      constructor
      · intro h1
        cases h1
        exact ⟨rfl, hreq⟩
      · rintro ⟨rfl, _⟩
        rfl

/-!
Firebase CDN-injection strategy (src/providers/firebase.ts).
-/

/-- The in-page result record of `executeSignIn` (src/types.ts
`FirebaseSignInResult`). -/
structure FirebaseSignInResult where
  success : Bool
  uid : Option String
  email : Option String
  idToken : Option String
  refreshToken : Option String
  error : Option String
deriving Repr, DecidableEq

/-- The in-page result record of `executeNextAuthSignIn` (src/types.ts
`NextAuthSignInResult`). -/
structure NextAuthSignInResult where
  success : Bool
  status : Option Nat
  error : Option String
deriving Repr, DecidableEq

/-- The fields the in-page exchange reads off the user credential returned by
`signInWithCustomToken`. -/
structure UserCredential where
  uid : String
  email : Option String
  refreshToken : String
deriving Repr, DecidableEq

/-- Oracle for the awaited in-page SDK calls of `executeSignIn`: app
instances are identified by numbers, and `.error e` models a thrown
exception whose `String(error)` rendering is `e`. -/
structure ExchangeEnv where
  initAppOutcome : Except String Nat
  authOutcome : Except String Unit
  tokenSignInOutcome : Except String UserCredential
  idTokenOutcome : Except String String
deriving Repr

/-- What one evaluation of the in-page exchange script did: its returned
result record, how many times `firebase.initializeApp` was invoked, which
app instance was handed to `firebase.auth`, and `window.firebase.apps`
afterwards. -/
structure ExchangeOutcome where
  result : FirebaseSignInResult
  initCalls : Nat
  usedApp : Option Nat
  appsAfter : List Nat
deriving Repr

/-- The failure record the in-page catch block builds: `success: false` with
the stringified error and nothing else. -/
def mkFailResult (e : String) : FirebaseSignInResult :=
  ⟨false, none, none, none, none, some e⟩

/-- The tail of the in-page exchange once an app instance is in hand:
`firebase.auth(app)`, `auth.signInWithCustomToken(token)`,
`user.getIdToken()`; any exception is caught into a failure record. -/
def exchangeWithApp (app : Nat) (apps : List Nat) (inits : Nat) (env : ExchangeEnv) :
    ExchangeOutcome :=
  match env.authOutcome with
  | .error e => ⟨mkFailResult e, inits, some app, apps⟩
  | .ok _ =>
    match env.tokenSignInOutcome with
    | .error e => ⟨mkFailResult e, inits, some app, apps⟩
    | .ok cred =>
      match env.idTokenOutcome with
      | .error e => ⟨mkFailResult e, inits, some app, apps⟩
      | .ok idTok =>
        ⟨⟨true, some cred.uid, cred.email, some idTok, some cred.refreshToken, none⟩,
          inits, some app, apps⟩

/-- The in-page script of `executeSignIn` (src/providers/firebase.ts): reuse
`window.firebase.apps[0]` when any app exists, otherwise call
`firebase.initializeApp(config)` once; then exchange the custom token.  The
whole body sits in a try/catch whose catch returns `success: false` with the
stringified error. -/
def executeSignInEval (apps : List Nat) (env : ExchangeEnv) : ExchangeOutcome :=
  match apps with
  | app :: _ => exchangeWithApp app apps 0 env
  | [] =>
    match env.initAppOutcome with
    | .error e => ⟨mkFailResult e, 1, none, apps⟩
    | .ok app => exchangeWithApp app (apps ++ [app]) 1 env

/-- Oracle for the awaited in-page fetches of `executeNextAuthSignIn`: the
CSRF fetch (plus its JSON parse) yielding the token, and the credentials
callback POST yielding an HTTP status. -/
structure NextAuthEnv where
  csrfOutcome : Except String String
  callbackOutcome : Except String Nat
deriving Repr

/-- The in-page script of `executeNextAuthSignIn`: status 200 or 302 counts
as success, any other status as failure, and a thrown exception is caught
into `success: false` with the stringified error. -/
def executeNextAuthEval (env : NextAuthEnv) : NextAuthSignInResult :=
  match env.csrfOutcome with
  | .error e => ⟨false, none, some e⟩
  | .ok _ =>
    match env.callbackOutcome with
    | .error e => ⟨false, none, some e⟩
    | .ok status => ⟨status == 200 || status == 302, some status, none⟩

/-- One page/network operation performed by `FirebaseProvider.signIn`. -/
inductive FbEvent where
  | mintToken
  | navigate
  | addScript (url : String)
  | evalExchange (outcome : ExchangeOutcome)
  | evalNextAuth (result : NextAuthSignInResult)
  | waitTimeout (ms : Nat)
  | probeIndexedDB (keys : List String)
  | reload
deriving Repr

/-- Oracle for one `FirebaseProvider.signIn` run. -/
structure FirebaseEnv where
  adminAppsNonempty : Bool
  adminInitOutcome : Except String Unit
  mintOutcome : Except String String
  gotoOutcome : Except String Unit
  scriptAppOutcome : Except String Unit
  scriptAuthOutcome : Except String Unit
  pageApps : List Nat
  exchange : ExchangeEnv
  nextAuth : NextAuthEnv
  dbKeys : List String
  reloadOutcome : Except String Unit
deriving Repr

/-- `initializeAdmin` (src/providers/firebase.ts): reuse the already
initialized admin app when one exists, otherwise initialize one from the
service account. -/
def adminInitResult (env : FirebaseEnv) : Except String Unit :=
  if env.adminAppsNonempty then .ok () else env.adminInitOutcome

/-- The guard of the optional NextAuth step (src/providers/firebase.ts
step 6): `this.nextAuth?.enabled && signInResult.idToken &&
signInResult.refreshToken`. -/
def nextAuthActive (nextAuth : Option NextAuthConfig) (r : FirebaseSignInResult) : Bool :=
  (match nextAuth with | none => false | some na => na.enabled) &&
  jsTruthy r.idToken && jsTruthy r.refreshToken

/-- The Firebase SDK script URLs injected from the CDN. -/
def firebaseAppCompatUrl : String :=
  "https://www.gstatic.com/firebasejs/10.7.0/firebase-app-compat.js"

/-- See `firebaseAppCompatUrl`. -/
def firebaseAuthCompatUrl : String :=
  "https://www.gstatic.com/firebasejs/10.7.0/firebase-auth-compat.js"

/-- `FirebaseProvider.signIn` (src/providers/firebase.ts): require a truthy
`testUser.uid`, mint the custom token via the admin SDK, navigate to the app
origin, inject the two CDN scripts (`injectCDNScripts` — exceptions here are
not caught), evaluate the in-page exchange, throw when its result reports
failure, run the optional non-fatal NextAuth step, wait, probe IndexedDB
(the probe's promise only ever resolves), and reload.  Each event is
recorded when the corresponding call is made. -/
def firebaseSignIn (user : TestUser) (nextAuth : Option NextAuthConfig) (env : FirebaseEnv) :
    Except String Unit × List FbEvent :=
  if !jsTruthy user.uid then
    (.error "Firebase authentication requires testUser.uid to be set", [])
  else
    match adminInitResult env with
    | .error e => (.error e, [])
    | .ok _ =>
      let t0 := [FbEvent.mintToken]
      match env.mintOutcome with
      | .error e => (.error e, t0)
      | .ok _token =>
        let t1 := t0 ++ [FbEvent.navigate]
        match env.gotoOutcome with
        | .error e => (.error e, t1)
        | .ok _ =>
          let t2 := t1 ++ [FbEvent.addScript firebaseAppCompatUrl]
          match env.scriptAppOutcome with
          | .error e => (.error e, t2)
          | .ok _ =>
            let t3 := t2 ++ [FbEvent.addScript firebaseAuthCompatUrl]
            match env.scriptAuthOutcome with
            | .error e => (.error e, t3)
            | .ok _ =>
              let out := executeSignInEval env.pageApps env.exchange
              let t4 := t3 ++ [FbEvent.evalExchange out]
              if !out.result.success then
                (.error ("Firebase sign in failed: " ++ optDisplay out.result.error), t4)
              else
                let t5 :=
                  if nextAuthActive nextAuth out.result then
                    t4 ++ [FbEvent.evalNextAuth (executeNextAuthEval env.nextAuth)]
                  else t4
                let t6 := t5 ++ [FbEvent.waitTimeout 2000,
                  FbEvent.probeIndexedDB env.dbKeys, FbEvent.reload]
                match env.reloadOutcome with
                | .error e => (.error e, t6)
                | .ok _ => (.ok (), t6)

/-- Recognize an in-page exchange evaluation in a trace. -/
def isExchangeEvent : FbEvent → Bool
  | FbEvent.evalExchange _ => true
  | _ => false

/-!
Supabase password-grant strategy (code listing in
claudedocs/gemini_design.md, `SupabaseProvider`).
-/

/-- The session fields `authenticateViaAPI` reads out of the token
endpoint's JSON response (`session.user` is an opaque JSON object of which
only `email` is ever read, for logging). -/
structure SupabaseSession where
  accessToken : String
  refreshToken : String
  expiresIn : Int
  expiresAt : Int
  userEmail : Option String
deriving Repr, DecidableEq

/-- The response the password-grant fetch resolves with: `ok`/`status`, the
body text read when not ok, and the parsed session fields read when ok. -/
structure SupabaseFetchResponse where
  ok : Bool
  status : Nat
  body : String
  session : SupabaseSession
deriving Repr, DecidableEq

/-- Oracle for one `SupabaseProvider.signIn` run: the token-endpoint fetch,
the navigation, the reload, and what `localStorage.getItem(storageKey)`
returns after the reload (the reloaded application may have rewritten the
key, so the read-back value is an oracle; `none` models JavaScript
`null`). -/
structure SupabaseEnv where
  fetchOutcome : Except String SupabaseFetchResponse
  gotoOutcome : Except String Unit
  reloadOutcome : Except String Unit
  storedValue : Option String
deriving Repr

/-- One page/network operation performed by `SupabaseProvider.signIn`. -/
inductive SbEvent where
  | fetchToken (url : String)
  | navigate
  | writeStorage (key : String)
  | reload
  | readStorage (key : String) (value : Option String)
deriving Repr, DecidableEq

/-- `SupabaseProvider.signIn` with `authenticateViaAPI` and `injectSession`
inlined (listing in claudedocs/gemini_design.md): require truthy
`testUser.email` and `testUser.password`, POST the password grant, throw
with status and body on a non-ok response, navigate, write the session JSON
under the derived storage key, reload, read the key back and throw the
injection-verification error when the read-back value is JS-falsy
(`localStorage.getItem` returns `null` for an absent key, and the empty
string is also falsy). -/
def supabaseSignIn (config : SupabaseConfig) (user : TestUser) (env : SupabaseEnv) :
    Except String Unit × List SbEvent :=
  if !(jsTruthy user.email && jsTruthy user.password) then
    (.error "Supabase authentication requires testUser.email and testUser.password", [])
  else
    let authUrl := optDisplay config.url ++ "/auth/v1/token?grant_type=password"
    let t0 := [SbEvent.fetchToken authUrl]
    match env.fetchOutcome with
    | .error e => (.error e, t0)
    | .ok resp =>
      if !resp.ok then
        (.error ("Supabase authentication failed: " ++ toString resp.status ++ " - " ++
          resp.body), t0)
      else
        let t1 := t0 ++ [SbEvent.navigate]
        match env.gotoOutcome with
        | .error e => (.error e, t1)
        | .ok _ =>
          let key := String.mk (supabaseStorageKey (hostnameOf (optDisplay config.url)))
          let t2 := t1 ++ [SbEvent.writeStorage key, SbEvent.reload]
          match env.reloadOutcome with
          | .error e => (.error e, t2)
          | .ok _ =>
            let t3 := t2 ++ [SbEvent.readStorage key env.storedValue]
            match env.storedValue with
            | none => (.error "Supabase session was not persisted in localStorage", t3)
            | some v =>
              if v.isEmpty then
                (.error "Supabase session was not persisted in localStorage", t3)
              else (.ok (), t3)

/-!
Claim theorems.
-/

/-- C2: the Supabase storage key is derived deterministically from the
configured base URL: when the hostname ends with the hosted-SaaS suffix
`.supabase.co` (stated here, as in the claim's example, for a single dot-free
subdomain label) the key is `sb-` ++ label ++ `-auth-token`; for any hostname
not ending in that suffix the key is `sb-` ++ the full hostname with every
dot replaced by a hyphen ++ `-auth-token`. -/
theorem supabase_storage_key_derivation (label host : List Char)
    (h1 : '.' ∉ label) (h2 : ¬ supaSuffix <:+ host) :
    supabaseStorageKey (label ++ supaSuffix) = "sb-".data ++ label ++ "-auth-token".data ∧
    supabaseStorageKey host =
      "sb-".data ++ host.map (fun c => if c = '.' then '-' else c) ++ "-auth-token".data := by
  constructor
  · unfold supabaseStorageKey getProjectRef
    rw [if_pos (List.suffix_append label supaSuffix)]
    rw [replaceFirst_append_no_inner_occ supaSuffix supaSuffix_borderFree (by decide) label
      (fun hinf => h1 (hinf.subset (by decide)))]
  · unfold supabaseStorageKey getProjectRef
    rw [if_neg h2]

/-- Witness for C2 at the spec's two examples: `https://xyz.supabase.co`
yields `sb-xyz-auth-token` and `https://auth.mycompany.io` yields
`sb-auth-mycompany-io-auth-token`. -/
theorem supabase_storage_key_derivation_witness :
    supabaseStorageKey ("xyz".data ++ supaSuffix) = "sb-".data ++ "xyz".data ++ "-auth-token".data ∧
    supabaseStorageKey "auth.mycompany.io".data =
      "sb-".data ++ "auth.mycompany.io".data.map (fun c => if c = '.' then '-' else c) ++
        "-auth-token".data ∧
    supabaseStorageKeyOfUrl "https://xyz.supabase.co" = "sb-xyz-auth-token" ∧
    supabaseStorageKeyOfUrl "https://auth.mycompany.io" = "sb-auth-mycompany-io-auth-token" := by
  have h := supabase_storage_key_derivation "xyz".data "auth.mycompany.io".data
    (by decide) (by decide)
  exact ⟨h.1, h.2, by decide, by decide⟩

/-- C10 counterexample: the hostname `a.supabase.co.b.supabase.co` has the
labels `a.supabase.co.b` before the `.supabase.co` suffix, yet the derived
key is not `sb-a.supabase.co.b-auth-token`: JavaScript `String.replace` with
a string pattern removes the leftmost occurrence, producing
`sb-a.b.supabase.co-auth-token`. -/
theorem hosted_multilabel_counterexample :
    "a.supabase.co.b".data ++ supaSuffix = "a.supabase.co.b.supabase.co".data ∧
    '.' ∈ "a.supabase.co.b".data ∧
    supabaseStorageKey "a.supabase.co.b.supabase.co".data ≠
      "sb-".data ++ "a.supabase.co.b".data ++ "-auth-token".data ∧
    supabaseStorageKey "a.supabase.co.b.supabase.co".data =
      "sb-a.b.supabase.co-auth-token".data := by
  refine ⟨by decide, by decide, by decide, by decide⟩

/-- C10 amended: for every hostname `p ++ ".supabase.co"` whose prefix `p`
holds two or more labels (contains a dot) and does not itself contain
`.supabase.co` — so the leftmost occurrence of the pattern is the suffix —
the derived key is `sb-` ++ p ++ `-auth-token`, with every interior dot of
`p` retained: dot-to-hyphen normalization only happens on the non-hosted
branch. -/
theorem hosted_multilabel_key_amended (p : List Char)
    (hdot : '.' ∈ p) (hni : ¬ supaSuffix <:+: p) :
    supabaseStorageKey (p ++ supaSuffix) = "sb-".data ++ p ++ "-auth-token".data := by
  unfold supabaseStorageKey getProjectRef
  rw [if_pos (List.suffix_append p supaSuffix)]
  rw [replaceFirst_append_no_inner_occ supaSuffix supaSuffix_borderFree (by decide) p hni]

/-- Witness for the amended C10 at `https://a.b.supabase.co`, which yields
`sb-a.b-auth-token`. -/
theorem hosted_multilabel_key_amended_witness :
    ('.' ∈ "a.b".data) ∧ ¬ (supaSuffix <:+: "a.b".data) ∧
    supabaseStorageKey ("a.b".data ++ supaSuffix) =
      "sb-".data ++ "a.b".data ++ "-auth-token".data ∧
    supabaseStorageKeyOfUrl "https://a.b.supabase.co" = "sb-a.b-auth-token" :=
  ⟨by decide, by decide, hosted_multilabel_key_amended "a.b".data (by decide) (by decide),
    by decide⟩

/-- C1: the loader accepts a configuration exactly when the file exists,
parses, and every required field of the claim's enumeration is present (for
the active provider), returning the parsed configuration unchanged — and
whenever it throws, `authSetup` rejects with that error having performed no
browser or page operation at all. -/
theorem config_validation_total (file : Option (Option PlaywrightAuthConfig)) (p : String)
    (c : PlaywrightAuthConfig) :
    (loadConfigFile file p = .ok c ↔ file = some (some c) ∧ requiredConfigPresent c = true) ∧
    (∀ env : AuthSetupEnv, ∀ e, loadConfigFile env.file env.configPath = .error e →
      authSetupRun env = (.error e, [])) := by
  refine ⟨loadConfigFile_ok_iff file p c, ?_⟩
  intro env e he
  simp [authSetupRun, he]

/-- A complete, valid test principal used by the concrete witnesses. -/
def userX : TestUser := ⟨some "user@example.com", some "secret", some "uid-1"⟩

/-- A concrete service account used by the witnesses. -/
def saX : FirebaseServiceAccount :=
  ⟨"service_account", "proj", "kid", "key", "ce", "ci", "au", "tu", "pc", "cc", none⟩

/-- A concrete client config with the three required keys present. -/
def ccX : FirebaseClientConfig :=
  ⟨some "apiKey", some "proj.firebaseapp.com", some "proj", none, none, none⟩

/-- A concrete firebase block. -/
def fbCfgX : FirebaseConfig := ⟨some saX, some ccX⟩

/-- A concrete valid firebase configuration. -/
def cfgX : PlaywrightAuthConfig := ⟨some "firebase", some userX, some fbCfgX, none, none⟩

/-- A concrete supabase block. -/
def sbCfgX : SupabaseConfig := ⟨some "https://xyz.supabase.co", some "anon-key"⟩

/-- Witness for C1: a fully valid firebase configuration loads and is
returned unchanged, and a missing file makes `authSetup` reject with the
not-found error before any browser work. -/
theorem config_validation_total_witness :
    loadConfigFile (some (some cfgX)) "playwright.env.json" = .ok cfgX ∧
    authSetupRun ⟨"playwright.env.json", none, .ok (), .ok ()⟩ =
      (.error ("Configuration file not found: playwright.env.json\n" ++
        "Please create the file from playwright.env.json.sample"), []) := by
  have h := config_validation_total (some (some cfgX)) "playwright.env.json" cfgX
  exact ⟨h.1.mpr ⟨rfl, by decide⟩, h.2 ⟨"playwright.env.json", none, .ok (), .ok ()⟩ _ rfl⟩

/-- C9: `createAuthProvider` throws the unknown-provider error for every
configuration whose provider value has no registered constructor; for
provider "firebase" with the firebase block present it returns a
`FirebaseProvider` bound to that sub-config, the shared test principal and
the optional nextAuth block; for "supabase" with the supabase block present
a `SupabaseProvider` bound to that sub-config and the principal; and it
throws when the matching provider's sub-config block is absent. -/
theorem createAuthProvider_dispatch (c : PlaywrightAuthConfig) :
    (c.provider ≠ some "firebase" → c.provider ≠ some "supabase" →
      createAuthProvider c = .error ("Unknown provider: " ++ providerName c)) ∧
    (c.provider = some "firebase" →
      (∀ fb, c.firebase = some fb →
        createAuthProvider c = .ok (.firebase fb c.testUser c.nextAuth)) ∧
      (c.firebase = none →
        createAuthProvider c = .error "Firebase configuration is required")) ∧
    (c.provider = some "supabase" →
      (∀ sb, c.supabase = some sb →
        createAuthProvider c = .ok (.supabase sb c.testUser)) ∧
      (c.supabase = none →
        createAuthProvider c = .error "Supabase configuration is required")) := by
  obtain ⟨prov, tu, fb, sb, na⟩ := c
  refine ⟨?_, ?_, ?_⟩
  · intro h1 h2
    rcases prov with _ | p
    · rfl
    · simp only [createAuthProvider, createProvider]
  · rintro rfl
    constructor
    · rintro fb' rfl
      rfl
    · rintro rfl
      rfl
  · rintro rfl
    constructor
    · rintro sb' rfl
      rfl
    · rintro rfl
      rfl

/-- Witness for C9: an unregistered provider name, both successful
constructions, and a missing firebase block. -/
theorem createAuthProvider_dispatch_witness :
    createAuthProvider ⟨some "auth0", some userX, none, none, none⟩ =
      .error ("Unknown provider: " ++
        providerName ⟨some "auth0", some userX, none, none, none⟩) ∧
    createAuthProvider cfgX = .ok (.firebase fbCfgX (some userX) none) ∧
    createAuthProvider ⟨some "supabase", some userX, none, some sbCfgX, none⟩ =
      .ok (.supabase sbCfgX (some userX)) ∧
    createAuthProvider ⟨some "firebase", some userX, none, none, none⟩ =
      .error "Firebase configuration is required" := by
  refine ⟨?_, ?_, ?_, ?_⟩
  · exact (createAuthProvider_dispatch _).1 (by decide) (by decide)
  · exact ((createAuthProvider_dispatch cfgX).2.1 rfl).1 fbCfgX rfl
  · exact ((createAuthProvider_dispatch _).2.2 rfl).1 sbCfgX rfl
  · exact ((createAuthProvider_dispatch _).2.1 rfl).2 rfl

/-- C8: every run of `authSetup` that launches the browser closes it, and
closes it last, on the success path and on every failure path (provider
`signIn` throwing, snapshot capture throwing); `createProvider` — the only
call between the launch and the try/finally — cannot throw on a
configuration the loader accepted. -/
theorem browser_teardown (env : AuthSetupEnv)
    (h : SetupEvent.launchBrowser ∈ (authSetupRun env).2) :
    (authSetupRun env).2.getLast? = some SetupEvent.closeBrowser := by
  rcases hl : loadConfigFile env.file env.configPath with e | config
  · simp [authSetupRun, hl] at h
  · have hreq := ((loadConfigFile_ok_iff env.file env.configPath config).mp hl).2
    obtain ⟨inst, hinst⟩ := createProvider_ok_of_valid config hreq
    rcases hs : env.signInOutcome with e | u
    · simp [authSetupRun, hl, hinst, hs]
    · rcases hsnap : env.snapshotOutcome with e | u2
      · simp [authSetupRun, hl, hinst, hs, hsnap]
      · simp [authSetupRun, hl, hinst, hs, hsnap]

/-- A successful concrete run used by the driver witnesses. -/
def setupEnvX : AuthSetupEnv := ⟨"playwright.env.json", some (some cfgX), .ok (), .ok ()⟩

/-- A concrete run whose provider `signIn` throws. -/
def setupEnvFail : AuthSetupEnv :=
  ⟨"playwright.env.json", some (some cfgX), .error "Firebase sign in failed: boom", .ok ()⟩

/-- Witness for C8 on a successful run and on a run whose `signIn` throws. -/
theorem browser_teardown_witness :
    SetupEvent.launchBrowser ∈ (authSetupRun setupEnvX).2 ∧
    (authSetupRun setupEnvX).2.getLast? = some SetupEvent.closeBrowser ∧
    SetupEvent.launchBrowser ∈ (authSetupRun setupEnvFail).2 ∧
    (authSetupRun setupEnvFail).2.getLast? = some SetupEvent.closeBrowser :=
  ⟨by decide, browser_teardown setupEnvX (by decide), by decide,
    browser_teardown setupEnvFail (by decide)⟩

/-- A successful in-page exchange oracle. -/
def exEnvOk : ExchangeEnv :=
  ⟨.ok 1, .ok (), .ok ⟨"uid-1", some "user@example.com", "refresh-1"⟩, .ok "id-token-1"⟩

/-- An in-page exchange oracle whose `signInWithCustomToken` throws. -/
def exEnvFail : ExchangeEnv :=
  ⟨.ok 1, .ok (), .error "Error: INVALID_CUSTOM_TOKEN", .ok "id-token-1"⟩

/-- A NextAuth oracle whose callback answers 200. -/
def naEnvOk : NextAuthEnv := ⟨.ok "csrf-1", .ok 200⟩

/-- A firebase run oracle whose only failure is the in-page exchange. -/
def fenvExFail : FirebaseEnv :=
  ⟨true, .ok (), .ok "custom-token", .ok (), .ok (), .ok (), [], exEnvFail, naEnvOk, [], .ok ()⟩

/-- C3: `authSetup` makes the storage-snapshot capture call exactly once,
with IndexedDB capture enabled, and only when the provider's `signIn`
resolved; when `signIn` throws, no capture call occurs and `authSetup`
rejects with that same error — and the firebase strategy's `signIn` does
throw whenever its in-page exchange reports `success: false`. -/
theorem snapshot_only_on_success (env : AuthSetupEnv) :
    (env.signInOutcome = .ok () → SetupEvent.providerSignIn ∈ (authSetupRun env).2 →
      countSnapshots (authSetupRun env).2 = 1 ∧
      SetupEvent.saveStorageState true ∈ (authSetupRun env).2) ∧
    (∀ e, env.signInOutcome = .error e →
      countSnapshots (authSetupRun env).2 = 0 ∧
      (SetupEvent.providerSignIn ∈ (authSetupRun env).2 →
        (authSetupRun env).1 = .error e)) ∧
    (∀ user na fenv,
      (executeSignInEval fenv.pageApps fenv.exchange).result.success = false →
      (firebaseSignIn user na fenv).1 ≠ .ok ()) := by
  refine ⟨?_, ?_, ?_⟩
  · intro hok hmem
    rcases hl : loadConfigFile env.file env.configPath with e | config
    · simp [authSetupRun, hl] at hmem
    · rcases hc : createProvider config with e | inst
      · simp [authSetupRun, hl, hc] at hmem
      · rcases hsnap : env.snapshotOutcome with e | u <;>
          constructor <;>
          simp [authSetupRun, hl, hc, hok, hsnap, countSnapshots]
  · intro e he
    rcases hl : loadConfigFile env.file env.configPath with e2 | config
    · simp [authSetupRun, hl, countSnapshots]
    · rcases hc : createProvider config with e2 | inst
      · simp [authSetupRun, hl, hc, countSnapshots]
      · simp [authSetupRun, hl, hc, he, countSnapshots]
  · intro user na fenv hsucc
    cases h1 : jsTruthy user.uid
    · simp [firebaseSignIn, h1]
    · rcases h2 : adminInitResult fenv with e | u
      · simp [firebaseSignIn, h1, h2]
      · rcases h3 : fenv.mintOutcome with e | tok
        · simp [firebaseSignIn, h1, h2, h3]
        · rcases h4 : fenv.gotoOutcome with e | u4
          · simp [firebaseSignIn, h1, h2, h3, h4]
          · rcases h5 : fenv.scriptAppOutcome with e | u5
            · simp [firebaseSignIn, h1, h2, h3, h4, h5]
            · rcases h6 : fenv.scriptAuthOutcome with e | u6
              · simp [firebaseSignIn, h1, h2, h3, h4, h5, h6]
              · simp [firebaseSignIn, h1, h2, h3, h4, h5, h6, hsucc]

/-- Witness for C3: a successful run captures once with IndexedDB enabled, a
run whose `signIn` throws captures nothing and rejects with that error, and
a concrete exchange failure makes the firebase `signIn` throw. -/
theorem snapshot_only_on_success_witness :
    countSnapshots (authSetupRun setupEnvX).2 = 1 ∧
    SetupEvent.saveStorageState true ∈ (authSetupRun setupEnvX).2 ∧
    countSnapshots (authSetupRun setupEnvFail).2 = 0 ∧
    (authSetupRun setupEnvFail).1 = .error "Firebase sign in failed: boom" ∧
    (firebaseSignIn userX none fenvExFail).1 ≠ .ok () := by
  have h1 := (snapshot_only_on_success setupEnvX).1 rfl (by decide)
  have h2 := (snapshot_only_on_success setupEnvFail).2.1 "Firebase sign in failed: boom" rfl
  have h3 := (snapshot_only_on_success setupEnvX).2.2 userX none fenvExFail rfl
  exact ⟨h1.1, h1.2, h2.1, h2.2 (by decide), h3⟩

/-- Helper: the exchange tail passes the in-hand app, the apps list and the
init counter through unchanged, whatever the SDK calls do. -/
theorem exchangeWithApp_spec (app : Nat) (apps : List Nat) (inits : Nat) (env : ExchangeEnv) :
    (exchangeWithApp app apps inits env).initCalls = inits ∧
    (exchangeWithApp app apps inits env).usedApp = some app ∧
    (exchangeWithApp app apps inits env).appsAfter = apps := by
  rcases h1 : env.authOutcome with e | u <;>
    rcases h2 : env.tokenSignInOutcome with e2 | cred <;>
    rcases h3 : env.idTokenOutcome with e3 | tok <;>
    simp [exchangeWithApp, h1, h2, h3]

/-- Helper shared by several claim theorems: when the in-page exchange
reports failure, `FirebaseProvider.signIn` cannot resolve — every path
either throws earlier or throws `Firebase sign in failed`. -/
theorem firebaseSignIn_not_ok_of_exchange_failure (user : TestUser)
    (na : Option NextAuthConfig) (fenv : FirebaseEnv)
    (hsucc : (executeSignInEval fenv.pageApps fenv.exchange).result.success = false) :
    (firebaseSignIn user na fenv).1 ≠ .ok () := by
  cases h1 : jsTruthy user.uid
  · simp [firebaseSignIn, h1]
  · rcases h2 : adminInitResult fenv with e | u
    · simp [firebaseSignIn, h1, h2]
    · rcases h3 : fenv.mintOutcome with e | tok
      · simp [firebaseSignIn, h1, h2, h3]
      · rcases h4 : fenv.gotoOutcome with e | u4
        · simp [firebaseSignIn, h1, h2, h3, h4]
        · rcases h5 : fenv.scriptAppOutcome with e | u5
          · simp [firebaseSignIn, h1, h2, h3, h4, h5]
          · rcases h6 : fenv.scriptAuthOutcome with e | u6
            · simp [firebaseSignIn, h1, h2, h3, h4, h5, h6]
            · simp [firebaseSignIn, h1, h2, h3, h4, h5, h6, hsucc]

/-- C5: the in-page exchange reuses the first existing app instance and
performs no initialization when the page already holds one, and makes
exactly one initialization call when none exists — running the exchange on
an already-initialized page never initializes a second app. -/
theorem app_reuse_idempotent (apps : List Nat) (env : ExchangeEnv) :
    (apps ≠ [] → (executeSignInEval apps env).initCalls = 0 ∧
      (executeSignInEval apps env).usedApp = apps.head? ∧
      (executeSignInEval apps env).appsAfter = apps) ∧
    (apps = [] → (executeSignInEval apps env).initCalls = 1) ∧
    (executeSignInEval apps env).initCalls ≤ 1 := by
  rcases apps with _ | ⟨a, rest⟩
  · refine ⟨fun h => absurd rfl h, fun _ => ?_, ?_⟩ <;>
      · rcases hi : env.initAppOutcome with e | app
        · simp [executeSignInEval, hi]
        · simp [executeSignInEval, hi, (exchangeWithApp_spec app [app] 1 env).1]
  · have hs := exchangeWithApp_spec a (a :: rest) 0 env
    refine ⟨fun _ => ⟨?_, ?_, ?_⟩, fun h => by simp at h, ?_⟩ <;>
      simp [executeSignInEval, hs.1, hs.2.1, hs.2.2]

/-- Witness for C5: a page holding app `7` reuses it without initializing,
and an empty page initializes exactly once. -/
theorem app_reuse_idempotent_witness :
    (executeSignInEval [7] exEnvOk).initCalls = 0 ∧
    (executeSignInEval [7] exEnvOk).usedApp = some 7 ∧
    (executeSignInEval [] exEnvOk).initCalls = 1 := by
  have h1 := (app_reuse_idempotent [7] exEnvOk).1 (by simp)
  have h2 := (app_reuse_idempotent [] exEnvOk).2.1 rfl
  exact ⟨h1.1, h1.2.1, h2⟩

/-- C6: the NextAuth step treats HTTP 200 or 302 from the callback endpoint
as success and every other status, or any exception during the exchange, as
failure; a NextAuth failure never makes the firebase `signIn` throw — with
every primary step succeeding, `signIn` resolves whatever the NextAuth
oracle does — whereas a primary-step failure (the exchange reporting
`success: false`) does make it throw. -/
theorem nextauth_nonfatal (env : NextAuthEnv) (user : TestUser)
    (na : Option NextAuthConfig) (fenv : FirebaseEnv) :
    (∀ tok s, env.csrfOutcome = .ok tok → env.callbackOutcome = .ok s →
      executeNextAuthEval env = ⟨s == 200 || s == 302, some s, none⟩) ∧
    (∀ e, env.csrfOutcome = .error e → (executeNextAuthEval env).success = false) ∧
    (∀ tok e, env.csrfOutcome = .ok tok → env.callbackOutcome = .error e →
      (executeNextAuthEval env).success = false) ∧
    (jsTruthy user.uid = true → adminInitResult fenv = .ok () →
      (∃ t, fenv.mintOutcome = .ok t) → fenv.gotoOutcome = .ok () →
      fenv.scriptAppOutcome = .ok () → fenv.scriptAuthOutcome = .ok () →
      (executeSignInEval fenv.pageApps fenv.exchange).result.success = true →
      fenv.reloadOutcome = .ok () →
      (firebaseSignIn user na fenv).1 = .ok ()) ∧
    ((executeSignInEval fenv.pageApps fenv.exchange).result.success = false →
      (firebaseSignIn user na fenv).1 ≠ .ok ()) := by
  refine ⟨?_, ?_, ?_, ?_, ?_⟩
  · intro tok s h1 h2
    simp [executeNextAuthEval, h1, h2]
  · intro e h1
    simp [executeNextAuthEval, h1]
  · intro tok e h1 h2
    simp [executeNextAuthEval, h1, h2]
  · intro h1 h2 h3 h4 h5 h6 h7 h8
    obtain ⟨t, ht⟩ := h3
    simp [firebaseSignIn, h1, h2, ht, h4, h5, h6, h7, h8]
  · exact firebaseSignIn_not_ok_of_exchange_failure user na fenv

/-- A NextAuth oracle whose callback answers HTTP 500. -/
def naEnv500 : NextAuthEnv := ⟨.ok "csrf-1", .ok 500⟩

/-- A firebase run whose primary steps all succeed while its NextAuth
callback answers 500. -/
def fenv500 : FirebaseEnv :=
  ⟨true, .ok (), .ok "custom-token", .ok (), .ok (), .ok (), [], exEnvOk, naEnv500,
    ["firebase:authUser"], .ok ()⟩

/-- Witness for C6: a 500 callback yields a failed NextAuth result yet the
full run (with NextAuth enabled) still resolves, while a failing exchange
makes the run throw. -/
theorem nextauth_nonfatal_witness :
    executeNextAuthEval naEnv500 = ⟨false, some 500, none⟩ ∧
    (firebaseSignIn userX (some ⟨true, none⟩) fenv500).1 = .ok () ∧
    (firebaseSignIn userX (some ⟨true, none⟩) fenvExFail).1 ≠ .ok () := by
  have h := nextauth_nonfatal naEnv500 userX (some ⟨true, none⟩) fenv500
  have h2 := nextauth_nonfatal naEnv500 userX (some ⟨true, none⟩) fenvExFail
  refine ⟨?_, ?_, ?_⟩
  · exact h.1 "csrf-1" 500 rfl rfl
  · exact h.2.2.2.1 (by decide) rfl ⟨"custom-token", rfl⟩ rfl rfl rfl rfl rfl
  · exact h2.2.2.2.2 rfl

/-- An exchange oracle whose in-page `initializeApp` throws. -/
def exEnvInitFail : ExchangeEnv :=
  ⟨.error "Error: app init failed", .ok (), .ok ⟨"uid-1", none, "refresh-1"⟩, .ok "id-token-1"⟩

/-- A firebase run whose first CDN `addScriptTag` call rejects. -/
def fenvInj : FirebaseEnv :=
  ⟨true, .ok (), .ok "custom-token", .ok (), .error "Error: net::ERR_ABORTED", .ok (), [],
    exEnvOk, naEnvOk, [], .ok ()⟩

/-- C4 counterexample: when CDN script injection (step 3) rejects, the
exception is NOT converted into a `SignInResult` — the in-page exchange is
never evaluated (the trace holds no exchange event) and `signIn` throws the
injection error verbatim, not a `Firebase sign in failed` wrapper. -/
theorem injection_error_not_converted :
    (firebaseSignIn userX none fenvInj).1 = .error "Error: net::ERR_ABORTED" ∧
    ((firebaseSignIn userX none fenvInj).2.filter isExchangeEvent).length = 0 :=
  ⟨rfl, rfl⟩

/-- C4 amended: every exception raised inside the in-page custom-token
exchange (step 4: `initializeApp`, `firebase.auth`, `signInWithCustomToken`,
`getIdToken`) is converted into a `SignInResult` with `success: false`
carrying the stringified error rather than propagating out of the
evaluation, and a failed exchange makes `signIn` throw, never yielding a
partial success; an exception during CDN script injection (step 3), however,
is not converted — it propagates out of `signIn` unchanged (see the
counterexample). -/
theorem exchange_error_conversion (apps : List Nat) (env : ExchangeEnv) (user : TestUser)
    (na : Option NextAuthConfig) (fenv : FirebaseEnv) :
    (∀ e, apps = [] → env.initAppOutcome = .error e →
      (executeSignInEval apps env).result = mkFailResult e) ∧
    (∀ e, env.authOutcome = .error e →
      (apps ≠ [] ∨ (∃ a, env.initAppOutcome = .ok a)) →
      (executeSignInEval apps env).result = mkFailResult e) ∧
    (∀ e, env.authOutcome = .ok () → env.tokenSignInOutcome = .error e →
      (apps ≠ [] ∨ (∃ a, env.initAppOutcome = .ok a)) →
      (executeSignInEval apps env).result = mkFailResult e) ∧
    (∀ e cred, env.authOutcome = .ok () → env.tokenSignInOutcome = .ok cred →
      env.idTokenOutcome = .error e →
      (apps ≠ [] ∨ (∃ a, env.initAppOutcome = .ok a)) →
      (executeSignInEval apps env).result = mkFailResult e) ∧
    ((executeSignInEval fenv.pageApps fenv.exchange).result.success = false →
      (firebaseSignIn user na fenv).1 ≠ .ok ()) := by
  refine ⟨?_, ?_, ?_, ?_, firebaseSignIn_not_ok_of_exchange_failure user na fenv⟩
  · rintro e rfl hinit
    simp [executeSignInEval, hinit]
  · intro e hauth hsome
    rcases apps with _ | ⟨a, rest⟩
    · rcases hsome with h | ⟨a, ha⟩
      · exact absurd rfl h
      · simp [executeSignInEval, ha, exchangeWithApp, hauth]
    · simp [executeSignInEval, exchangeWithApp, hauth]
  · intro e hauth htok hsome
    rcases apps with _ | ⟨a, rest⟩
    · rcases hsome with h | ⟨a, ha⟩
      · exact absurd rfl h
      · simp [executeSignInEval, ha, exchangeWithApp, hauth, htok]
    · simp [executeSignInEval, exchangeWithApp, hauth, htok]
  · intro e cred hauth htok hid hsome
    rcases apps with _ | ⟨a, rest⟩
    · rcases hsome with h | ⟨a, ha⟩
      · exact absurd rfl h
      · simp [executeSignInEval, ha, exchangeWithApp, hauth, htok, hid]
    · simp [executeSignInEval, exchangeWithApp, hauth, htok, hid]

/-- Witness for the amended C4: a thrown in-page `initializeApp` and a
thrown `signInWithCustomToken` both come back as `success: false` records
carrying the stringified error, and the failed exchange makes the run
throw. -/
theorem exchange_error_conversion_witness :
    (executeSignInEval [] exEnvInitFail).result = mkFailResult "Error: app init failed" ∧
    (executeSignInEval [5] exEnvFail).result = mkFailResult "Error: INVALID_CUSTOM_TOKEN" ∧
    (firebaseSignIn userX none fenvExFail).1 ≠ .ok () := by
  have h := exchange_error_conversion [] exEnvInitFail userX none fenvExFail
  have h2 := exchange_error_conversion [5] exEnvFail userX none fenvExFail
  refine ⟨h.1 _ rfl rfl, ?_, h.2.2.2.2 rfl⟩
  exact h2.2.2.1 _ rfl rfl (Or.inl (by simp))

/-- A concrete session returned by the password grant. -/
def sessX : SupabaseSession :=
  ⟨"access-1", "refresh-1", 3600, 1999999999, some "user@example.com"⟩

/-- A supabase run whose steps all succeed and whose read-back value after
the reload is the empty string. -/
def sbEnvEmpty : SupabaseEnv := ⟨.ok ⟨true, 200, "", sessX⟩, .ok (), .ok (), some ""⟩

/-- C7 counterexample: with every step succeeding and the read-back value
being the empty string — a value IS stored under the derived key — `signIn`
still throws the injection-verification error, contradicting the claim's
"throws if and only if no value is stored ... and resolves successfully
otherwise": the code tests JS truthiness, which also rejects the empty
string. -/
theorem supabase_verify_counterexample :
    sbEnvEmpty.storedValue = some "" ∧
    (supabaseSignIn sbCfgX userX sbEnvEmpty).1 =
      .error "Supabase session was not persisted in localStorage" :=
  ⟨rfl, rfl⟩

/-- C7 amended: once the credential check, the password grant, the
navigation and the reload have succeeded, `signIn` throws the
injection-verification error exactly when the read-back value under the
derived key is JS-falsy — absent or the empty string — and resolves exactly
when a nonempty value is stored there. -/
theorem supabase_verify_amended (config : SupabaseConfig) (user : TestUser) (env : SupabaseEnv)
    (hcred : (jsTruthy user.email && jsTruthy user.password) = true)
    (hfetch : ∃ resp, env.fetchOutcome = .ok resp ∧ resp.ok = true)
    (hgoto : env.gotoOutcome = .ok ())
    (hreload : env.reloadOutcome = .ok ()) :
    ((supabaseSignIn config user env).1 =
        .error "Supabase session was not persisted in localStorage" ↔
      (env.storedValue = none ∨ env.storedValue = some "")) ∧
    ((supabaseSignIn config user env).1 = .ok () ↔
      ∃ v, env.storedValue = some v ∧ v ≠ "") := by
  obtain ⟨resp, hresp, hok⟩ := hfetch
  rcases hv : env.storedValue with _ | v
  · constructor <;> simp [supabaseSignIn, hcred, hresp, hok, hgoto, hreload, hv]
  · cases he : v.isEmpty
    · have hne : v ≠ "" := by
        intro heq
        rw [heq] at he
        exact absurd he (by decide)
      constructor <;>
        simp [supabaseSignIn, hcred, hresp, hok, hgoto, hreload, hv, he, hne]
    · have heq : v = "" := (String.isEmpty_iff v).mp he
      subst heq
      constructor <;> simp [supabaseSignIn, hcred, hresp, hok, hgoto, hreload, hv, he]

/-- A supabase run whose read-back value is a nonempty session record. -/
def sbEnvOk : SupabaseEnv := ⟨.ok ⟨true, 200, "", sessX⟩, .ok (), .ok (), some "stored-session"⟩

/-- Witness for the amended C7: a nonempty stored value makes `signIn`
resolve. -/
theorem supabase_verify_amended_witness :
    (supabaseSignIn sbCfgX userX sbEnvOk).1 = .ok () ∧
    sbEnvOk.storedValue = some "stored-session" := by
  have h := supabase_verify_amended sbCfgX userX sbEnvOk (by decide) ⟨_, rfl, rfl⟩ rfl rfl
  exact ⟨h.2.mpr ⟨"stored-session", rfl, by decide⟩, rfl⟩
